import Mathlib

/-!
# Verification of the plox core against its specification

This file gives a shallow embedding, in Lean 4, of the parts of the plox
tree-walking Lox interpreter (a Python code base) that its natural-language
specification talks about: the scanner (`plox/scanner.py`), the recursive
descent parser (`plox/parser.py`), the resolver's local-variable resolution
(`plox/resolver.py`), the environment model (`plox/environment.py`), the
value/equality model and the statement/expression evaluator
(`plox/interpreter.py`, `plox/function.py`, `plox/classes.py`), and the
exit-code policy of the driver (`plox/cli.py`).

Modelling conventions:
* Python floats (Lox numbers) are modelled as rationals `ℚ`: every claim
  checked here is about exact values, never about rounding, NaN or infinity.
* Python object identity is modelled where it matters: instances live in an
  object heap and values point at them by address; environments live in an
  arena and are referenced by index; AST nodes that the resolver keys on
  carry a numeric identity.
* Python exceptions that the interpreter does not catch (`TypeError`,
  `AttributeError`, `KeyError`, ...) are modelled as an explicit `pyError`
  outcome; `LoxRuntimeError` and `ReturnException` are modelled as their own
  outcomes, mirroring which handlers catch what.
* Loops and recursion in the source are modelled with an explicit fuel
  argument; running out of fuel is a separate outcome that no claim below
  identifies with a real result.
* `Plox.error` / `Plox.runtime_error` (the reporting hooks) are modelled by
  accumulating `(line, message)` pairs; the `HAD_ERROR` flag of the driver
  corresponds to that list being nonempty.
-/

namespace Plox

/-- Token kinds, exactly the members of `TokenType` in `plox/tokens.py`.
Note the source defines a member `IT` (and no member `IF`). -/
inductive TokenType where
  | LEFT_PAREN | RIGHT_PAREN | LEFT_BRACE | RIGHT_BRACE
  | COMMA | DOT | MINUS | PLUS | SEMICOLON | SLASH | STAR
  | BANG | BANG_EQUAL | EQUAL | EQUAL_EQUAL
  | GREATER | GREATER_EQUAL | LESS | LESS_EQUAL
  | IDENTIFIER | STRING | NUMBER
  | AND | CLASS | ELSE | FALSE | FUN | FOR | IT | NIL | OR
  | PRINT | RETURN | SUPER | THIS | TRUE | VAR | WHILE
  | EOF
  deriving DecidableEq, Repr

/-- A token literal: `Optional[Union[str, float]]` in `plox/tokens.py`,
with numbers modelled as rationals. -/
inductive TokenLit where
  | str (s : String)
  | num (q : ℚ)
  deriving DecidableEq, Repr

/-- A token as in `plox/tokens.py`: kind, verbatim lexeme, optional literal,
1-based line. -/
structure Token where
  type : TokenType
  lexeme : String
  literal : Option TokenLit
  line : Nat
  deriving DecidableEq, Repr

/-- `is_digit` from `plox/scanner.py`. -/
def is_digit (c : Char) : Bool :=
  '0' ≤ c && c ≤ '9'

/-- `is_alpha` from `plox/scanner.py`: ASCII letter or underscore. -/
def is_alpha (c : Char) : Bool :=
  ('a' ≤ c && c ≤ 'z') || ('A' ≤ c && c ≤ 'Z') || c = '_'

/-- The keyword table of `plox/scanner.py`, entry for entry.  The source
maps the lexeme "it" to `TokenType.IT`; there is no entry for "if". -/
def keywords : List (String × TokenType) :=
  [("and", .AND), ("class", .CLASS), ("else", .ELSE), ("false", .FALSE),
   ("fun", .FUN), ("for", .FOR), ("it", .IT), ("nil", .NIL), ("or", .OR),
   ("print", .PRINT), ("return", .RETURN), ("super", .SUPER),
   ("this", .THIS), ("true", .TRUE), ("var", .VAR), ("while", .WHILE)]

/-- `keywords.get(lexeme, TokenType.IDENTIFIER)` in `Scanner.identifier`. -/
def keywordLookup (s : String) : TokenType :=
  match (keywords.find? (fun p => p.1 = s)) with
  | some p => p.2
  | none => .IDENTIFIER

/-- Scanner state: the fields of the `Scanner` attrs class plus the error
reports that `Plox.error` would accumulate. -/
structure ScanState where
  source : List Char
  tokens : List Token
  start : Nat
  current : Nat
  line : Nat
  errors : List (Nat × String)

/-- `Scanner.is_at_end`. -/
def ScanState.isAtEnd (s : ScanState) : Bool :=
  s.source.length ≤ s.current

/-- `Scanner.peek`: current character, or `'\0'` past the end. -/
def ScanState.peek (s : ScanState) : Char :=
  s.source.getD s.current '\x00'

/-- `Scanner.peek_next`. -/
def ScanState.peekNext (s : ScanState) : Char :=
  s.source.getD (s.current + 1) '\x00'

/-- `Scanner.advance`: return the current character and move on.  The
source indexes unconditionally; it is only called when a character is
available, so the default is never consulted on those paths. -/
def ScanState.advance (s : ScanState) : Char × ScanState :=
  (s.source.getD s.current '\x00', { s with current := s.current + 1 })

/-- `Scanner.match`. -/
def ScanState.matchChar (s : ScanState) (c : Char) : Bool × ScanState :=
  if s.isAtEnd then (false, s)
  else if s.source.getD s.current '\x00' ≠ c then (false, s)
  else (true, { s with current := s.current + 1 })

/-- The lexeme `self.source[self.start : self.current]`. -/
def ScanState.lexeme (s : ScanState) : String :=
  String.mk ((s.source.drop s.start).take (s.current - s.start))

/-- `Scanner.add_token`. -/
def ScanState.addToken (s : ScanState) (t : TokenType)
    (lit : Option TokenLit := none) : ScanState :=
  { s with tokens := s.tokens ++ [⟨t, s.lexeme, lit, s.line⟩] }

/-- `Plox.error` as seen from the scanner: record a `(line, message)`
report (the driver also sets `HAD_ERROR`, modelled as this list being
nonempty). -/
def ScanState.report (s : ScanState) (msg : String) : ScanState :=
  { s with errors := s.errors ++ [(s.line, msg)] }

/-- The body of the `while` loop in `Scanner.string`, fuelled. -/
def stringLoop : Nat → ScanState → ScanState
  | 0, s => s
  | fuel + 1, s =>
    if s.peek ≠ '"' && !s.isAtEnd then
      let s := if s.peek = '\n' then { s with line := s.line + 1 } else s
      stringLoop fuel s.advance.2
    else s

/-- `Scanner.string`: consume until the closing quote; the literal is the
inner content without the quotes. -/
def scanString (s : ScanState) : ScanState :=
  let s := stringLoop (s.source.length + 1) s
  if s.isAtEnd then s.report "Unterminated string."
  else
    let s := s.advance.2
    let lit := String.mk ((s.source.drop (s.start + 1)).take (s.current - 1 - (s.start + 1)))
    s.addToken .STRING (some (.str lit))

/-- Consume characters while a predicate holds of `peek`, fuelled: the
`while` loops of `Scanner.number` and `Scanner.identifier`. -/
def consumeWhile (p : Char → Bool) : Nat → ScanState → ScanState
  | 0, s => s
  | fuel + 1, s =>
    if p s.peek then consumeWhile p fuel s.advance.2 else s

/-- Parse a digit run as a natural number (the integer part of Python's
`float` applied to the lexeme). -/
def digitsToNat (cs : List Char) : Nat :=
  cs.foldl (fun acc c => acc * 10 + (c.toNat - '0'.toNat)) 0

/-- Python's `float` on a scanner number lexeme `digits[.digits]`, as an
exact rational. -/
def lexemeToNum (cs : List Char) : ℚ :=
  match cs.splitOn '.' with
  | [intPart, fracPart] =>
      (digitsToNat intPart : ℚ) + (digitsToNat fracPart : ℚ) / ((10 : ℚ) ^ fracPart.length)
  | _ => (digitsToNat cs : ℚ)

/-- `Scanner.number`. -/
def scanNumber (s : ScanState) : ScanState :=
  let s := consumeWhile is_digit (s.source.length + 1) s
  let s :=
    if s.peek = '.' && is_digit s.peekNext then
      consumeWhile is_digit (s.source.length + 1) s.advance.2
    else s
  let cs := (s.source.drop s.start).take (s.current - s.start)
  s.addToken .NUMBER (some (.num (lexemeToNum cs)))

/-- `Scanner.identifier`: consume the alphanumeric run and consult the
keyword table. -/
def scanIdentifier (s : ScanState) : ScanState :=
  let s := consumeWhile (fun c => is_alpha c || is_digit c) (s.source.length + 1) s
  s.addToken (keywordLookup s.lexeme)

/-- The comment loop of the `/` branch in `Scanner.scan_token`. -/
def commentLoop : Nat → ScanState → ScanState
  | 0, s => s
  | fuel + 1, s =>
    if s.peek ≠ '\n' && !s.isAtEnd then commentLoop fuel s.advance.2 else s

/-- `Scanner.scan_token`: the per-character dispatch.  The whitespace
branch of the source discards only `'\t'` and `' '` (`c in ["\t", " "]`);
a carriage return falls through to the final `else` branch. -/
def scanToken (s : ScanState) : ScanState :=
  let (c, s) := s.advance
  if c = '(' then s.addToken .LEFT_PAREN
  else if c = ')' then s.addToken .RIGHT_PAREN
  else if c = '\x7b' then s.addToken .LEFT_BRACE
  else if c = '\x7d' then s.addToken .RIGHT_BRACE
  else if c = ',' then s.addToken .COMMA
  else if c = '.' then s.addToken .DOT
  else if c = '-' then s.addToken .MINUS
  else if c = '+' then s.addToken .PLUS
  else if c = ';' then s.addToken .SEMICOLON
  else if c = '*' then s.addToken .STAR
  else if c = '!' then
    let (m, s) := s.matchChar '='
    s.addToken (if m then .BANG_EQUAL else .BANG)
  else if c = '=' then
    let (m, s) := s.matchChar '='
    s.addToken (if m then .EQUAL_EQUAL else .EQUAL)
  else if c = '>' then
    let (m, s) := s.matchChar '='
    s.addToken (if m then .GREATER_EQUAL else .GREATER)
  else if c = '<' then
    let (m, s) := s.matchChar '='
    s.addToken (if m then .LESS_EQUAL else .LESS)
  else if c = '/' then
    let (m, s) := s.matchChar '/'
    if m then commentLoop (s.source.length + 1) s
    else s.addToken .SLASH
  else if c = '\t' || c = ' ' then s
  else if c = '\n' then { s with line := s.line + 1 }
  else if c = '"' then scanString s
  else if is_digit c then scanNumber s
  else if is_alpha c then scanIdentifier s
  else s.report "Unexpected character."

/-- The `while not self.is_at_end` loop of `Scanner.scan_tokens`,
fuelled: each `scan_token` consumes at least one character. -/
def scanLoop : Nat → ScanState → ScanState
  | 0, s => s
  | fuel + 1, s =>
    if s.isAtEnd then s
    else scanLoop fuel (scanToken { s with start := s.current })

/-- `Scanner(source).scan_tokens()`: scan everything and append the EOF
token. -/
def scanTokens (source : String) : ScanState :=
  let s := scanLoop (source.length + 1)
    ⟨source.toList, [], 0, 0, 1, []⟩
  { s with tokens := s.tokens ++ [⟨.EOF, "", none, s.line⟩] }

/-! ## Exit-code policy of the driver (`plox/cli.py`) -/

/-- `Plox.run_file` after `run` returns: `sys.exit(65)` when `HAD_ERROR`
is set, else `sys.exit(70)` when `HAD_RUNTIME_ERROR` is set, else a
normal return (exit code 0).  The `HAD_ERROR` test comes first in the
source, so it decides the exit code whenever it is set. -/
def runFileExit (hadError hadRuntimeError : Bool) : Nat :=
  if hadError then 65
  else if hadRuntimeError then 70
  else 0

/-! ## The resolver's local resolution (`plox/resolver.py`) -/

/-- A resolver scope: a mapping from name to the `defined` flag.  The
scope stack is kept as in the source: the innermost scope is the last
element of the list. -/
abbrev Scope := List (String × Bool)

/-- Python's `name.lexeme in scope` on a resolver scope. -/
def scopeContains (scope : Scope) (name : String) : Bool :=
  scope.any (fun p => p.1 = name)

/-- The loop of `Resolver.resolve_local`: enumerate the reversed scope
stack (innermost first) and return the index of the first scope that
contains the name; the side table gets no entry when no scope does. -/
def resolveLocalGo (name : String) : List Scope → Nat → Option Nat
  | [], _ => none
  | scope :: rest, depth =>
    if scopeContains scope name then some depth
    else resolveLocalGo name rest (depth + 1)

/-- `Resolver.resolve_local`: the depth recorded for a use of `name`
against the scope stack `scopes` (innermost scope last, as in the
source), or `none` when nothing is recorded. -/
def resolveLocal (scopes : List Scope) (name : String) : Option Nat :=
  resolveLocalGo name scopes.reverse 0

/-- The innermost-first distance the specification talks about: the
number of scopes strictly between the use and the innermost scope
declaring the name.  Written from the specification's words ("search
scopes innermost-outward", "0 = innermost") for comparison with
`resolveLocal`. -/
def staticDistance (scopes : List Scope) (name : String) : Option Nat :=
  scopes.reverse.findIdx? (fun scope => scopeContains scope name)

/-! ## The AST (`plox/expressions.py`, `plox/statements.py`)

Expression nodes that the resolution side table can key on (`Variable`,
`Assign`, `This`) carry a numeric identity `id`, modelling Python object
identity (the expression classes are `@define(eq=False)`, so the
`locals` dictionary hashes them by identity). -/

/-- What a parser-produced `Literal` node can carry: `None`, a bool, a
number or a string. -/
inductive LitVal where
  | nil
  | bool (b : Bool)
  | num (q : ℚ)
  | str (s : String)
  deriving DecidableEq, Repr

/-- Expressions, one constructor per class of `plox/expressions.py`.
The derived `BEq` plays the role of Python structural comparison on AST
values where attrs generates one; expression objects themselves are
`eq=False` in the source (identity), which only the resolution side
table relies on, through `id`. -/
inductive Expr where
  | assign (id : Nat) (name : Token) (value : Expr)
  | binary (left : Expr) (operator : Token) (right : Expr)
  | call (callee : Expr) (paren : Token) (arguments : List Expr)
  | get (obj : Expr) (name : Token)
  | grouping (expression : Expr)
  | literal (value : LitVal)
  | logical (left : Expr) (operator : Token) (right : Expr)
  | set (obj : Expr) (name : Token) (value : Expr)
  | thisE (id : Nat) (keyword : Token)
  | unary (operator : Token) (right : Expr)
  | variableE (id : Nat) (name : Token)
  deriving BEq

mutual

/-- A function declaration (`Function` in `plox/statements.py`): name,
parameter tokens, body statement list. -/
inductive FunctionDecl where
  | mk (name : Token) (params : List Token) (body : List (Option Stmt))
  deriving BEq

/-- Statements, one constructor per class of `plox/statements.py`.  The
source annotates `Class.superclass` as a `Variable`; the interpreter and
resolver never read it, and classes without a superclass leave it
absent, which the embedding writes as an `Option`. -/
inductive Stmt where
  | block (statements : List (Option Stmt))
  | classS (name : Token) (superclass : Option Expr) (methods : List FunctionDecl)
  | expression (e : Expr)
  | functionS (decl : FunctionDecl)
  | ifS (condition : Expr) (thenBranch : Stmt) (elseBranch : Option Stmt)
  | print (e : Expr)
  | returnS (keyword : Token) (value : Option Expr)
  | varS (name : Token) (initialiser : Option Expr)
  | whileS (condition : Expr) (body : Stmt)
  deriving BEq

end

/-- Name of a function declaration. -/
def FunctionDecl.name : FunctionDecl → Token
  | .mk n _ _ => n

/-- Parameters of a function declaration. -/
def FunctionDecl.params : FunctionDecl → List Token
  | .mk _ p _ => p

/-- Body of a function declaration. -/
def FunctionDecl.body : FunctionDecl → List (Option Stmt)
  | .mk _ _ b => b

/-! ## Runtime values (`plox/classes.py`, `plox/function.py`,
`plox/callables.py`)

Environments live in an arena (`IState.envs`) and are referenced by
index; Lox instances live in an object heap (`IState.objects`) and are
referenced by address.  Index `0` of the arena is the globals
environment. -/

/-- A `LoxFunction` value: declaration, closure environment (arena
index), initialiser flag. -/
structure LoxFunctionV where
  declaration : FunctionDecl
  closure : Nat
  is_initialiser : Bool

/-- A `LoxClass` value: name, optional superclass, method map. -/
inductive LoxClassV where
  | mk (name : String) (superclass : Option LoxClassV)
       (methods : List (String × LoxFunctionV))

/-- Name of a class value. -/
def LoxClassV.name : LoxClassV → String
  | .mk n _ _ => n

/-- Superclass of a class value. -/
def LoxClassV.superclass : LoxClassV → Option LoxClassV
  | .mk _ s _ => s

/-- Method map of a class value. -/
def LoxClassV.methods : LoxClassV → List (String × LoxFunctionV)
  | .mk _ _ m => m

/-- The universe of runtime values held in environments and fields.
`clock` is the single native `LoxCallable` that
`standard_global_environment` installs. -/
inductive Value where
  | nil
  | bool (b : Bool)
  | num (q : ℚ)
  | str (s : String)
  | clock
  | functionV (f : LoxFunctionV)
  | classV (c : LoxClassV)
  | inst (addr : Nat)

/-- A `LoxInstance` on the heap: class reference and field map. -/
structure ObjData where
  klass : LoxClassV
  fields : List (String × Value)

/-- An `Environment` in the arena: optional enclosing index and the
name-to-value map (a Python dict, modelled as an insertion-ordered
association list with unique keys). -/
structure EnvData where
  enclosing : Option Nat
  values : List (String × Value)

/-- The interpreter state: the environment arena (index 0 = globals,
`Interpreter.globals`), the current environment pointer
(`Interpreter.environment`), the object heap, the resolution side table
(`Interpreter.locals`, keyed by expression identity), the `print` output
sink, and the wall-clock value the native `clock` would read. -/
structure IState where
  envs : List EnvData
  environment : Nat
  objects : List ObjData
  locals : List (Nat × Nat)
  output : List String
  time : ℚ

/-- Arena read; the default is never consulted for states built by the
interpreter (environment references never dangle in Python). -/
def IState.envGetD (s : IState) (i : Nat) : EnvData :=
  s.envs.getD i ⟨none, []⟩

/-- Heap read; as with `envGetD` the default is never consulted. -/
def IState.objGetD (s : IState) (a : Nat) : ObjData :=
  s.objects.getD a ⟨.mk "" none [], []⟩

/-- Python dict assignment `d[k] = v`: replace in place, else append. -/
def dictSet (d : List (String × Value)) (k : String) (v : Value) :
    List (String × Value) :=
  match d with
  | [] => [(k, v)]
  | (k1, v1) :: rest =>
    if k1 = k then (k, v) :: rest else (k1, v1) :: dictSet rest k v

/-- Python dict lookup `d.get(k)` / `k in d`. -/
def dictFind (d : List (String × Value)) (k : String) : Option Value :=
  match d.find? (fun p => p.1 = k) with
  | some p => some p.2
  | none => none

/-- Replace the element at an index of a list, leaving other indices
unchanged. -/
def listModify {α : Type} (l : List α) (i : Nat) (f : α → α) : List α :=
  match l, i with
  | [], _ => []
  | x :: xs, 0 => f x :: xs
  | x :: xs, i + 1 => x :: listModify xs i f

/-- `LoxClass.find_method`: own method map first, then the superclass
chain. -/
def findMethod : LoxClassV → String → Option LoxFunctionV
  | .mk _ sup methods, n =>
    match methods.find? (fun p => p.1 = n) with
    | some p => some p.2
    | none =>
      match sup with
      | some c => findMethod c n
      | none => none

/-- `LoxClass.arity`: the arity of `init` if there is one, else 0. -/
def LoxClassV.arity (c : LoxClassV) : Nat :=
  match findMethod c "init" with
  | some i => i.declaration.params.length
  | none => 0

/-! ## Python `==` on runtime values

The attrs `@define` on `LoxInstance`, `LoxClass`, `LoxFunction` and
`Environment` generates structural `__eq__` methods, so Python compares
these objects field by field (dicts compare by key set and recursively
by value).  The recursion can chase the heap and the environment arena,
so it is fuelled: `none` models a Python `RecursionError` on cyclic or
too-deep structures.  Python booleans are numbers (`True == 1.0` holds
in raw `==`); `Interpreter.is_equal` intercepts booleans before ever
reaching `==`, which is where the language-level bool/number distinction
comes from. -/

/-- Three-valued conjunction for the fuelled equality. -/
def andO : Option Bool → Option Bool → Option Bool
  | none, _ => none
  | some false, _ => some false
  | some true, b => b

mutual

/-- Python `==` on two runtime values, given the heap and arena in `s`. -/
def pyEq : Nat → IState → Value → Value → Option Bool
  | 0, _, _, _ => none
  | _ + 1, _, .nil, .nil => some true
  | _ + 1, _, .nil, _ => some false
  | _ + 1, _, _, .nil => some false
  | _ + 1, _, .bool x, .bool y => some (x = y)
  | _ + 1, _, .bool x, .num q => some ((if x then (1 : ℚ) else 0) = q)
  | _ + 1, _, .num q, .bool x => some (q = (if x then (1 : ℚ) else 0))
  | _ + 1, _, .num p, .num q => some (p = q)
  | _ + 1, _, .str t, .str u => some (t = u)
  | _ + 1, _, .clock, .clock => some true
  | fuel + 1, s, .functionV f, .functionV g => fnEq fuel s f g
  | fuel + 1, s, .classV c, .classV d => classEq fuel s c d
  | fuel + 1, s, .inst i, .inst j =>
    andO (classEq fuel s (s.objGetD i).klass (s.objGetD j).klass)
         (dictEqV fuel s (s.objGetD i).fields (s.objGetD j).fields)
  | _ + 1, _, _, _ => some false

/-- Python `==` on two `LoxFunction` values: structural on the
declaration and flag, recursive on the closure environments.  (The
declaration comparison uses the derived structural `BEq`; the branch is
unreachable from executions of this interpreter because
`visit_function` and `visit_class` never produce function values.) -/
def fnEq : Nat → IState → LoxFunctionV → LoxFunctionV → Option Bool
  | 0, _, _, _ => none
  | fuel + 1, s, f, g =>
    if (f.declaration == g.declaration) && (f.is_initialiser == g.is_initialiser) then
      envEq fuel s (some f.closure) (some g.closure)
    else some false

/-- Python `==` on two `LoxClass` values. -/
def classEq : Nat → IState → LoxClassV → LoxClassV → Option Bool
  | 0, _, _, _ => none
  | fuel + 1, s, .mk n1 sup1 m1, .mk n2 sup2 m2 =>
    if n1 = n2 then
      andO
        (match sup1, sup2 with
         | none, none => some true
         | some c, some d => classEq fuel s c d
         | _, _ => some false)
        (methodsEq fuel s m1 m2)
    else some false

/-- Python dict `==` on method maps. -/
def methodsEq : Nat → IState → List (String × LoxFunctionV) →
    List (String × LoxFunctionV) → Option Bool
  | 0, _, _, _ => none
  | fuel + 1, s, d1, d2 =>
    if d1.length = d2.length then methodsSub fuel s d1 d2 else some false

/-- Each binding of the first method map holds in the second. -/
def methodsSub : Nat → IState → List (String × LoxFunctionV) →
    List (String × LoxFunctionV) → Option Bool
  | 0, _, _, _ => none
  | _ + 1, _, [], _ => some true
  | fuel + 1, s, (k, v) :: rest, d2 =>
    match d2.find? (fun p => p.1 = k) with
    | none => some false
    | some p => andO (fnEq fuel s v p.2) (methodsSub fuel s rest d2)

/-- Python dict `==` on value maps (instance fields, environment
values). -/
def dictEqV : Nat → IState → List (String × Value) →
    List (String × Value) → Option Bool
  | 0, _, _, _ => none
  | fuel + 1, s, d1, d2 =>
    if d1.length = d2.length then dictSubV fuel s d1 d2 else some false

/-- Each binding of the first value map holds in the second. -/
def dictSubV : Nat → IState → List (String × Value) →
    List (String × Value) → Option Bool
  | 0, _, _, _ => none
  | _ + 1, _, [], _ => some true
  | fuel + 1, s, (k, v) :: rest, d2 =>
    match dictFind d2 k with
    | none => some false
    | some w => andO (pyEq fuel s v w) (dictSubV fuel s rest d2)

/-- Python `==` on two `Environment` references (attrs structural
equality; `None == None` is true, `None` against an environment is
false). -/
def envEq : Nat → IState → Option Nat → Option Nat → Option Bool
  | 0, _, _, _ => none
  | _ + 1, _, none, none => some true
  | fuel + 1, s, some i, some j =>
    andO (envEq fuel s (s.envGetD i).enclosing (s.envGetD j).enclosing)
         (dictEqV fuel s (s.envGetD i).values (s.envGetD j).values)
  | _ + 1, _, _, _ => some false

end

/-- `Interpreter.is_truthy`: `None` and `False` are falsy, everything
else truthy. -/
def is_truthy : Value → Bool
  | .nil => false
  | .bool b => b
  | _ => true

/-- `Interpreter.is_equal`: booleans (on either side) compare by `is`
(identity, hence same-boolean, and never equal to a non-boolean); all
other values fall through to Python `==`. -/
def is_equal (fuel : Nat) (s : IState) (l r : Value) : Option Bool :=
  match l, r with
  | .bool a, .bool b => some (a = b)
  | .bool _, _ => some false
  | _, .bool _ => some false
  | _, _ => pyEq fuel s l r



/-! ## The interpreter (`plox/interpreter.py`, `plox/function.py`,
`plox/classes.py`)

Effects are threaded through a state-and-exceptions monad over
`IState`.  The four failure modes mirror the Python exception classes
and who catches them: `runtimeError` is `LoxRuntimeError` (caught only
by the top-level `interpret`), `returnExc` is `ReturnException` (caught
only by `LoxFunction.call`), `pyError` is any other Python exception
(caught by nobody), and `outOfFuel` is the fuel artifact. -/

/-- Failure modes of an interpreter step. -/
inductive Fail where
  | runtimeError (line : Nat) (message : String)
  | returnExc (v : Value)
  | pyError (message : String)
  | outOfFuel

/-- The interpreter monad: state plus short-circuiting failure. -/
def M (α : Type) : Type :=
  IState → Except Fail α × IState

instance : Monad M where
  pure a := fun s => (.ok a, s)
  bind m k := fun s =>
    match m s with
    | (.ok a, s1) => k a s1
    | (.error e, s1) => (.error e, s1)

/-- Raise a failure. -/
def throwF {α : Type} (e : Fail) : M α :=
  fun s => (.error e, s)

/-- Read the whole state. -/
def getS : M IState :=
  fun s => (.ok s, s)

/-- Update the state. -/
def modifyS (f : IState → IState) : M Unit :=
  fun s => (.ok (), f s)

/-- `Environment.define` on the environment at arena index `i`:
unconditionally set the name in that scope. -/
def envDefine (i : Nat) (name : String) (v : Value) : M Unit :=
  modifyS fun s =>
    { s with envs :=
        (listModify s.envs i
          (fun e => { e with values := dictSet e.values name v })) }

/-- `Environment.ancestor`: walk exactly `depth` enclosing links; the
source's loop would hit `AttributeError` if it stepped off the chain
(`None.enclosing`). -/
def ancestorRef (s : IState) : Option Nat → Nat → Except Fail (Option Nat)
  | env, 0 => .ok env
  | none, _ + 1 =>
    .error (.pyError "AttributeError: 'NoneType' object has no attribute 'enclosing'")
  | some i, d + 1 => ancestorRef s ((s.envGetD i).enclosing) d

/-- `Environment.get_at`: `ancestor(depth).values[name]`; a missing key
is a Python `KeyError` (the source does not guard it). -/
def envGetAt (i : Nat) (depth : Nat) (name : String) : M Value :=
  fun s =>
    match ancestorRef s (some i) depth with
    | .error e => (.error e, s)
    | .ok none =>
      (.error (.pyError "AttributeError: 'NoneType' object has no attribute 'values'"), s)
    | .ok (some j) =>
      match dictFind (s.envGetD j).values name with
      | some v => (.ok v, s)
      | none => (.error (.pyError ("KeyError: '" ++ name ++ "'")), s)

/-- `Environment.assign_at`: `ancestor(depth).values[name.lexeme] = value`. -/
def envAssignAt (i : Nat) (depth : Nat) (name : String) (v : Value) : M Unit :=
  fun s =>
    match ancestorRef s (some i) depth with
    | .error e => (.error e, s)
    | .ok none =>
      (.error (.pyError "AttributeError: 'NoneType' object has no attribute 'values'"), s)
    | .ok (some j) =>
      (.ok (),
       { s with envs :=
           (listModify s.envs j
             (fun e => { e with values := dictSet e.values name v })) })

/-- `Environment.get`: search this scope, delegate to the enclosing one,
fail with the undefined-variable runtime error at the chain root. -/
def envGet : Nat → Nat → Token → M Value
  | 0, _, _ => throwF .outOfFuel
  | fuel + 1, i, name => fun s =>
    match dictFind (s.envGetD i).values name.lexeme with
    | some v => (.ok v, s)
    | none =>
      match (s.envGetD i).enclosing with
      | some j => envGet fuel j name s
      | none =>
        (.error (.runtimeError name.line
          ("Undefined variable '" ++ name.lexeme ++ "'.")), s)

/-- `Environment.assign`: same search rule as `get`, writing in the
scope that holds the name. -/
def envAssign : Nat → Nat → Token → Value → M Unit
  | 0, _, _, _ => throwF .outOfFuel
  | fuel + 1, i, name, v => fun s =>
    if (dictFind (s.envGetD i).values name.lexeme).isSome then
      (.ok (),
       { s with envs :=
           (listModify s.envs i
             (fun e => { e with values := dictSet e.values name.lexeme v })) })
    else
      match (s.envGetD i).enclosing with
      | some j => envAssign fuel j name v s
      | none =>
        (.error (.runtimeError name.line
          ("Undefined variable '" ++ name.lexeme ++ "'.")), s)

/-- `standard_global_environment`: the arena root holding the native
`clock`. -/
def standardGlobals : EnvData :=
  ⟨none, [("clock", Value.clock)]⟩

/-- An initial interpreter state over given statements-to-run: globals
only, empty heap, given side table and wall clock. -/
def initState (locals : List (Nat × Nat)) (time : ℚ) : IState :=
  ⟨[standardGlobals], 0, [], locals, [], time⟩

/-- `Interpreter.locals.get(expr)`: the side-table entry for an
expression identity. -/
def localsLookup (s : IState) (id : Nat) : Option Nat :=
  match s.locals.find? (fun p => p.1 = id) with
  | some p => some p.2
  | none => none

/-- `Interpreter.look_up_variable`: annotated expressions read at their
recorded depth from the current environment; unannotated ones read from
the globals. -/
def lookUpVariable (fuel : Nat) (id : Nat) (name : Token) : M Value := do
  let s ← getS
  match localsLookup s id with
  | some d => envGetAt s.environment d name.lexeme
  | none => envGet fuel 0 name

/-- The value a parser `Literal` node evaluates to. -/
def litToValue : LitVal → Value
  | .nil => .nil
  | .bool b => .bool b
  | .num q => .num q
  | .str s => .str s

/-- `Interpreter.check_number_operands` applied to one operand. -/
def checkNumberOperand (op : Token) (v : Value) : M Unit :=
  match v with
  | .num _ => pure ()
  | _ => throwF (.runtimeError op.line "Operand must be a number.")

/-- `Interpreter.check_number_operands` applied to two operands. -/
def checkNumberOperands (op : Token) (l r : Value) : M Unit :=
  match l, r with
  | .num _, .num _ => pure ()
  | _, _ => throwF (.runtimeError op.line "Operands must be numbers.")

/-- Decimal rendering used by `stringify`; the claims below never
depend on number formatting, so the exact Python `str(float)` shortest
form is not reproduced. -/
def numToText (q : ℚ) : String :=
  if q.den = 1 then toString q.num else toString q

/-- `Interpreter.stringify`. -/
def stringify (s : IState) : Value → String
  | .nil => "nil"
  | .bool true => "true"
  | .bool false => "false"
  | .num q => numToText q
  | .str t => t
  | .clock => "<native fn>"
  | .functionV f => "<fn " ++ f.declaration.name.lexeme ++ ">"
  | .classV c => c.name
  | .inst a => (s.objGetD a).klass.name ++ " instance"

/-- `visit_print`'s `print(self.stringify(value))`: append a line to the
output sink. -/
def printValue (v : Value) : M Unit :=
  fun s => (.ok (), { s with output := s.output ++ [stringify s v] })

/-- `LoxFunction.bind`: a fresh environment over the closure holding
`this`, and a function value sharing declaration and flag. -/
def bindMethod (m : LoxFunctionV) (addr : Nat) : M LoxFunctionV :=
  fun s =>
    (.ok ⟨m.declaration, s.envs.length, m.is_initialiser⟩,
     { s with envs := s.envs ++ [⟨some m.closure, [("this", Value.inst addr)]⟩] })

/-- `LoxInstance.get`: fields first, then class methods (bound to the
instance), then the undefined-property runtime error. -/
def instanceGet (addr : Nat) (name : Token) : M Value := do
  let s ← getS
  match dictFind (s.objGetD addr).fields name.lexeme with
  | some v => pure v
  | none =>
    match findMethod (s.objGetD addr).klass name.lexeme with
    | some m => do
      let f ← bindMethod m addr
      pure (Value.functionV f)
    | none =>
      throwF (.runtimeError name.line
        ("Undefined property '" ++ name.lexeme ++ "'."))

/-- `LoxInstance.set`: unconditionally write the field map. -/
def instanceSet (addr : Nat) (name : String) (v : Value) : M Unit :=
  modifyS fun s =>
    { s with objects :=
        (listModify s.objects addr
          (fun o => { o with fields := dictSet o.fields name v })) }

/-- `for param, arg in zip(params, arguments): environment.define(...)`
in `LoxFunction.call` (`zip` stops at the shorter list). -/
def defineParams (i : Nat) : List (Token × Value) → M Unit
  | [] => pure ()
  | (p, a) :: rest => do
    envDefine i p.lexeme a
    defineParams i rest

/-- The arithmetic/comparison/equality dispatch of
`Interpreter.visit_binary`, after both operands are evaluated.  A fuel
is threaded only into `is_equal` (Python `==` can recurse); the final
catch-all mirrors the method body falling through and returning `None`.
Dividing by zero raises Python's `ZeroDivisionError` (floats in CPython
do not produce IEEE infinities on division by zero). -/
def binaryOp (fuel : Nat) (op : Token) (l r : Value) : M Value :=
  match op.type with
  | .EQUAL_EQUAL =>
    fun s =>
      match is_equal fuel s l r with
      | some b => (.ok (.bool b), s)
      | none => (.error (.pyError "RecursionError"), s)
  | .BANG_EQUAL =>
    fun s =>
      match is_equal fuel s l r with
      | some b => (.ok (.bool (!b)), s)
      | none => (.error (.pyError "RecursionError"), s)
  | .GREATER => do
    checkNumberOperands op l r
    match l, r with
    | .num a, .num b => pure (.bool (a > b))
    | _, _ => throwF (.pyError "TypeError")
  | .GREATER_EQUAL => do
    checkNumberOperands op l r
    match l, r with
    | .num a, .num b => pure (.bool (a ≥ b))
    | _, _ => throwF (.pyError "TypeError")
  | .LESS => do
    checkNumberOperands op l r
    match l, r with
    | .num a, .num b => pure (.bool (a < b))
    | _, _ => throwF (.pyError "TypeError")
  | .LESS_EQUAL => do
    checkNumberOperands op l r
    match l, r with
    | .num a, .num b => pure (.bool (a ≤ b))
    | _, _ => throwF (.pyError "TypeError")
  | .PLUS =>
    match l, r with
    | .num a, .num b => pure (.num (a + b))
    | .str a, .str b => pure (.str (a ++ b))
    | _, _ =>
      throwF (.runtimeError op.line "Operands must be two numbers or two strings.")
  | .MINUS => do
    checkNumberOperands op l r
    match l, r with
    | .num a, .num b => pure (.num (a - b))
    | _, _ => throwF (.pyError "TypeError")
  | .STAR => do
    checkNumberOperands op l r
    match l, r with
    | .num a, .num b => pure (.num (a * b))
    | _, _ => throwF (.pyError "TypeError")
  | .SLASH => do
    checkNumberOperands op l r
    match l, r with
    | .num a, .num b =>
      if b = 0 then throwF (.pyError "ZeroDivisionError: float division by zero")
      else pure (.num (a / b))
    | _, _ => throwF (.pyError "TypeError")
  | _ => pure .nil

mutual

/-- `Interpreter.evaluate` / the `visit_*` expression methods.  Every
recursive call spends one unit of fuel. -/
def evaluate : Nat → Expr → M Value
  | 0, _ => throwF .outOfFuel
  | fuel + 1, e =>
    match e with
    | .literal v => pure (litToValue v)
    | .grouping inner => evaluate fuel inner
    | .unary op right => do
      let r ← evaluate fuel right
      if op.type = .MINUS then do
        checkNumberOperand op r
        match r with
        | .num q => pure (.num (-q))
        | _ => throwF (.pyError "TypeError")
      else if op.type = .BANG then
        pure (.bool (!is_truthy r))
      else pure .nil
    | .binary l op r => do
      let lv ← evaluate fuel l
      let rv ← evaluate fuel r
      binaryOp fuel op lv rv
    | .logical l op r => do
      let lv ← evaluate fuel l
      if (op.type = .AND && is_truthy lv) || (op.type = .OR && !is_truthy lv) then
        evaluate fuel r
      else pure lv
    | .variableE id name => lookUpVariable fuel id name
    | .assign id name value => do
      let v ← evaluate fuel value
      let s ← getS
      match localsLookup s id with
      | some d => do
        envAssignAt s.environment d name.lexeme v
        pure v
      | none => do
        envAssign fuel 0 name v
        pure v
    | .call callee paren args => do
      let cv ← evaluate fuel callee
      let argv ← evalList fuel args
      match cv with
      | .functionV f =>
        if argv.length ≠ f.declaration.params.length then
          throwF (.runtimeError paren.line
            ("Expected " ++ toString f.declaration.params.length ++
             " arguments but got " ++ toString argv.length ++ "."))
        else loxFunctionCall fuel f argv
      | .classV c =>
        if argv.length ≠ c.arity then
          throwF (.runtimeError paren.line
            ("Expected " ++ toString c.arity ++
             " arguments but got " ++ toString argv.length ++ "."))
        else loxClassCall fuel c argv
      | .clock =>
        if argv.length ≠ 0 then
          throwF (.runtimeError paren.line
            ("Expected 0 arguments but got " ++ toString argv.length ++ "."))
        else fun s => (.ok (.num s.time), s)
      | _ => throwF (.runtimeError paren.line "Can only call functions and classes.")
    | .get obj name => do
      let o ← evaluate fuel obj
      match o with
      | .inst addr => instanceGet addr name
      | _ => throwF (.runtimeError name.line "Only instances have properties.")
    | .set obj name value => do
      let o ← evaluate fuel obj
      match o with
      | .inst addr => do
        let v ← evaluate fuel value
        instanceSet addr name.lexeme v
        pure v
      | _ => throwF (.runtimeError name.line "Only instances have fields.")
    | .thisE _ _ =>
      -- `This.accept` dispatches to `visit_this`, which `Interpreter`
      -- does not implement.
      throwF (.pyError "AttributeError: 'Interpreter' object has no attribute 'visit_this'")

/-- The argument list comprehension of `visit_call` (left to right). -/
def evalList : Nat → List Expr → M (List Value)
  | 0, _ => throwF .outOfFuel
  | _ + 1, [] => pure []
  | fuel + 1, e :: rest => do
    let v ← evaluate fuel e
    let vs ← evalList fuel rest
    pure (v :: vs)

/-- `Interpreter.execute` / the `visit_*` statement methods. -/
def execute : Nat → Stmt → M Unit
  | 0, _ => throwF .outOfFuel
  | fuel + 1, st =>
    match st with
    | .expression e => do
      let _ ← evaluate fuel e
      pure ()
    | .print e => do
      let v ← evaluate fuel e
      printValue v
    | .varS name init => do
      let v ← match init with
        | some e => evaluate fuel e
        | none => pure Value.nil
      let s ← getS
      envDefine s.environment name.lexeme v
    | .functionS _ =>
      -- `visit_function` calls `LoxFunction(stmt, self.environment)`,
      -- but `LoxFunction` (plox/function.py) also requires
      -- `is_initialiser`; Python raises TypeError before `define` runs.
      throwF (.pyError
        "TypeError: LoxFunction() missing 1 required positional argument: 'is_initialiser'")
    | .classS name _ _ => do
      let s ← getS
      envDefine s.environment name.lexeme .nil
      -- `visit_class` then calls `LoxClass(stmt.name.lexeme)`, but
      -- `LoxClass` (plox/classes.py) also requires `superclass` and
      -- `methods`; Python raises TypeError before `assign` runs.
      throwF (.pyError
        "TypeError: LoxClass() missing 2 required positional arguments: 'superclass' and 'methods'")
    | .ifS c t e => do
      let v ← evaluate fuel c
      if is_truthy v then execute fuel t
      else
        match e with
        | some el => execute fuel el
        | none => pure ()
    | .returnS _ value => do
      let v ← match value with
        | some e => evaluate fuel e
        | none => pure Value.nil
      throwF (.returnExc v)
    | .whileS c body => whileRun fuel c body
    | .block stmts => do
      let s ← getS
      let newIdx := s.envs.length
      modifyS (fun s1 => { s1 with envs := s1.envs ++ [⟨some s1.environment, []⟩] })
      executeBlockIn fuel stmts newIdx

/-- The `while` loop of `visit_while`. -/
def whileRun : Nat → Expr → Stmt → M Unit
  | 0, _, _ => throwF .outOfFuel
  | fuel + 1, c, body => do
    let v ← evaluate fuel c
    if is_truthy v then do
      execute fuel body
      whileRun fuel c body
    else pure ()

/-- The statement loop shared by `Interpreter.interpret` and
`Interpreter.execute_block`.  The lists the parser hands over may hold
`None` where a declaration failed to parse; executing such an entry is
`None.accept(self)`, a Python `AttributeError`. -/
def executeSeq : Nat → List (Option Stmt) → M Unit
  | 0, _ => throwF .outOfFuel
  | _ + 1, [] => pure ()
  | _ + 1, none :: _ =>
    throwF (.pyError "AttributeError: 'NoneType' object has no attribute 'accept'")
  | fuel + 1, some st :: rest => do
    execute fuel st
    executeSeq fuel rest

/-- `Interpreter.execute_block`: save the current environment pointer,
run under `envIdx`, and restore the pointer in a `finally`, whatever the
outcome. -/
def executeBlockIn : Nat → List (Option Stmt) → Nat → M Unit
  | 0, _, _ => throwF .outOfFuel
  | fuel + 1, stmts, envIdx => fun s =>
    let previous := s.environment
    match executeSeq fuel stmts { s with environment := envIdx } with
    | (r, s1) => (r, { s1 with environment := previous })

/-- `LoxFunction.call`: fresh environment over the closure, bind
parameters to arguments in order, run the body through
`execute_block`; a `ReturnException` is caught here, and an initialiser
returns the bound `this`. -/
def loxFunctionCall : Nat → LoxFunctionV → List Value → M Value
  | 0, _, _ => throwF .outOfFuel
  | fuel + 1, f, args => do
    let s ← getS
    let envIdx := s.envs.length
    modifyS (fun s1 => { s1 with envs := s1.envs ++ [⟨some f.closure, []⟩] })
    defineParams envIdx (f.declaration.params.zip args)
    fun s0 =>
      match executeBlockIn fuel f.declaration.body envIdx s0 with
      | (.error (.returnExc v), s1) =>
        if f.is_initialiser then envGetAt f.closure 0 "this" s1
        else (.ok v, s1)
      | (.ok _, s1) =>
        if f.is_initialiser then envGetAt f.closure 0 "this" s1
        else (.ok Value.nil, s1)
      | (.error e, s1) => (.error e, s1)

/-- `LoxClass.call`: allocate a fresh instance, call a bound `init` when
the class chain has one, return the instance. -/
def loxClassCall : Nat → LoxClassV → List Value → M Value
  | 0, _, _ => throwF .outOfFuel
  | fuel + 1, c, args => do
    let s ← getS
    let addr := s.objects.length
    modifyS (fun s1 => { s1 with objects := s1.objects ++ [⟨c, []⟩] })
    match findMethod c "init" with
    | some init => do
      let bound ← bindMethod init addr
      let _ ← loxFunctionCall fuel bound args
      pure (Value.inst addr)
    | none => pure (Value.inst addr)

end


/-! ## The parser (`plox/parser.py`)

A recursive-descent parser over the token list.  `Variable` and
`Assign` nodes receive fresh identities from a counter in the parser
state, modelling Python object identity.  Two members of the failure
type mirror the two ways a parse can abort: `LoxParseError` (caught by
`Parser.declaration`) and a Python-level error.  The source refers to
`TokenType.IF` in `Parser.statement` and `Parser.synchronise`, a member
that `plox/tokens.py` does not define (it defines `IT`); evaluating
that attribute raises `AttributeError`, which nothing catches. -/

/-- Parser state: the token list, the cursor, the reports accumulated
through `Plox.error`, and the identity counter for freshly built
expression nodes. -/
structure PState where
  tokens : List Token
  current : Nat
  errors : List (Nat × String)
  nextId : Nat

/-- Failure modes of a parsing step. -/
inductive PThrow where
  | loxParseError (line : Nat) (message : String)
  | pyError (message : String)
  | outOfFuel

/-- The parser monad: state plus short-circuiting failure. -/
def P (α : Type) : Type :=
  PState → Except PThrow α × PState

instance : Monad P where
  pure a := fun s => (.ok a, s)
  bind m k := fun s =>
    match m s with
    | (.ok a, s1) => k a s1
    | (.error e, s1) => (.error e, s1)

/-- Raise a parser failure. -/
def throwP {α : Type} (e : PThrow) : P α :=
  fun s => (.error e, s)

/-- `Parser.peek`: the token under the cursor (the list always ends in
an EOF token, so the default is never consulted by parser code). -/
def peekT : P Token :=
  fun s => (.ok (s.tokens.getD s.current ⟨.EOF, "", none, 0⟩), s)

/-- `Parser.previous`. -/
def previousT : P Token :=
  fun s => (.ok (s.tokens.getD (s.current - 1) ⟨.EOF, "", none, 0⟩), s)

/-- `Parser.is_at_end`. -/
def isAtEndP : P Bool := do
  let t ← peekT
  pure (t.type = .EOF)

/-- `Parser.advance`: move past the current token unless at EOF, then
return `previous`. -/
def advanceT : P Token := do
  let atEnd ← isAtEndP
  if !atEnd then
    fun s => (.ok (), { s with current := s.current + 1 })
  previousT

/-- `Parser.check`. -/
def checkT (t : TokenType) : P Bool := do
  let atEnd ← isAtEndP
  if atEnd then pure false
  else do
    let p ← peekT
    pure (p.type = t)

/-- `Parser.match`: try each kind in order, consuming the token on the
first hit. -/
def matchAny : List TokenType → P Bool
  | [] => pure false
  | t :: rest => do
    if ← checkT t then do
      let _ ← advanceT
      pure true
    else matchAny rest

/-- `Parser.error`: report through `Plox.error` and build the
`LoxParseError` for the caller to raise (or drop). -/
def reportError (t : Token) (msg : String) : P Unit :=
  fun s => (.ok (), { s with errors := s.errors ++ [(t.line, msg)] })

/-- `raise self.error(token, message)`: report, then throw. -/
def errorThrow {α : Type} (t : Token) (msg : String) : P α := do
  reportError t msg
  throwP (.loxParseError t.line msg)

/-- `Parser.consume`. -/
def consumeT (t : TokenType) (msg : String) : P Token := do
  if ← checkT t then advanceT
  else do
    let p ← peekT
    errorThrow p msg

/-- A fresh identity for a newly constructed expression node. -/
def freshId : P Nat :=
  fun s => (.ok s.nextId, { s with nextId := s.nextId + 1 })

/-- `Parser.synchronise`.  After the unconditional `advance`, the loop
body first tests whether the token just consumed was a semicolon; any
further iteration evaluates a list literal containing `TokenType.IF`,
which does not exist, so Python raises `AttributeError` there. -/
def synchronise : P Unit := do
  let _ ← advanceT
  let atEnd ← isAtEndP
  if atEnd then pure ()
  else do
    let prev ← previousT
    if prev.type = .SEMICOLON then pure ()
    else throwP (.pyError "AttributeError: IF")

mutual

/-- `Parser.declaration`: `fun`/`var` or a statement, catching
`LoxParseError` (and only it), synchronising and producing `None`. -/
def declarationP : Nat → P (Option Stmt)
  | 0 => throwP .outOfFuel
  | fuel + 1 => fun s =>
    let body : P (Option Stmt) := do
      if ← matchAny [.FUN] then do
        let f ← functionP fuel "function"
        pure (some f)
      else if ← matchAny [.VAR] then do
        let v ← varDeclaration fuel
        pure (some v)
      else do
        let st ← statementP fuel
        pure (some st)
    match body s with
    | (.error (.loxParseError _ _), s1) =>
      (do synchronise; pure (none : Option Stmt)) s1
    | other => other

/-- `Parser.var_declaration`. -/
def varDeclaration : Nat → P Stmt
  | 0 => throwP .outOfFuel
  | fuel + 1 => do
    let name ← consumeT .IDENTIFIER "Expect variable name."
    let init ←
      if ← matchAny [.EQUAL] then do
        let e ← expressionP fuel
        pure (some e)
      else pure (none : Option Expr)
    let stmt := Stmt.varS name init
    let _ ← consumeT .SEMICOLON "Expect ';' after declaration."
    pure stmt

/-- `Parser.statement`: after the `for` test, the source evaluates
`TokenType.IF`, which does not exist, so every non-`for` statement
raises `AttributeError`; the `if`/`print`/`return`/`while`/block/
expression branches below that line are unreachable. -/
def statementP : Nat → P Stmt
  | 0 => throwP .outOfFuel
  | fuel + 1 => do
    if ← matchAny [.FOR] then forStatement fuel
    else throwP (.pyError "AttributeError: IF")

/-- `Parser.for_statement`: desugar into the while form.  (Its trailing
`self.statement()` call for the body is reachable and raises like
`statement` itself.) -/
def forStatement : Nat → P Stmt
  | 0 => throwP .outOfFuel
  | fuel + 1 => do
    let _ ← consumeT .LEFT_PAREN "Expect '(' after 'for'."
    let init ←
      if ← matchAny [.SEMICOLON] then pure (none : Option Stmt)
      else if ← matchAny [.VAR] then do
        let v ← varDeclaration fuel
        pure (some v)
      else do
        let e ← expressionStatement fuel
        pure (some e)
    let cond ←
      if !(← checkT .SEMICOLON) then expressionP fuel
      else pure (Expr.literal (.bool true))
    let _ ← consumeT .SEMICOLON "Expect ';' after loop condition."
    let incr ←
      if !(← checkT .RIGHT_PAREN) then do
        let e ← expressionP fuel
        pure (some e)
      else pure (none : Option Expr)
    let _ ← consumeT .RIGHT_PAREN "Expect ')' after increment."
    let body ← statementP fuel
    let body :=
      match incr with
      | some e => Stmt.block [some body, some (Stmt.expression e)]
      | none => body
    let body := Stmt.whileS cond body
    match init with
    | some i => pure (Stmt.block [some i, some body])
    | none => pure body

/-- `Parser.expression_statement`. -/
def expressionStatement : Nat → P Stmt
  | 0 => throwP .outOfFuel
  | fuel + 1 => do
    let e ← expressionP fuel
    let _ ← consumeT .SEMICOLON "Expect ';' after expression."
    pure (Stmt.expression e)

/-- `Parser.function`. -/
def functionP : Nat → String → P Stmt
  | 0, _ => throwP .outOfFuel
  | fuel + 1, kind => do
    let name ← consumeT .IDENTIFIER ("Expect " ++ kind ++ " name.")
    let _ ← consumeT .LEFT_PAREN ("Expect '(' after " ++ kind ++ " name.")
    let params ←
      if !(← checkT .RIGHT_PAREN) then do
        let first ← consumeT .IDENTIFIER "Expect parameter name."
        paramsLoop fuel [first]
      else pure ([] : List Token)
    let _ ← consumeT .RIGHT_PAREN "Expect ')' after parameters."
    let _ ← consumeT .LEFT_BRACE ("Expect '\x7b' before " ++ kind ++ " body.")
    let body ← blockP fuel
    pure (Stmt.functionS (.mk name params body))

/-- The parameter loop of `Parser.function`: past 255 the error is
reported but not raised. -/
def paramsLoop : Nat → List Token → P (List Token)
  | 0, _ => throwP .outOfFuel
  | fuel + 1, acc => do
    if ← matchAny [.COMMA] then do
      if acc.length ≥ 255 then do
        let p ← peekT
        reportError p "Can't have more than 255 parameters."
      let nxt ← consumeT .IDENTIFIER "Expect parameter name."
      paramsLoop fuel (acc ++ [nxt])
    else pure acc

/-- `Parser.block`: collect declarations (which may be `None`) until the
closing brace. -/
def blockP : Nat → P (List (Option Stmt))
  | 0 => throwP .outOfFuel
  | fuel + 1 => do
    let stmts ← blockLoop fuel
    let _ ← consumeT .RIGHT_BRACE "Expect '\x7d' after block."
    pure stmts

/-- The collection loop of `Parser.block`. -/
def blockLoop : Nat → P (List (Option Stmt))
  | 0 => throwP .outOfFuel
  | fuel + 1 => do
    let stop ← checkT .RIGHT_BRACE
    let atEnd ← isAtEndP
    if !stop && !atEnd then do
      let d ← declarationP fuel
      let rest ← blockLoop fuel
      pure (d :: rest)
    else pure []

/-- `Parser.expression`. -/
def expressionP : Nat → P Expr
  | 0 => throwP .outOfFuel
  | fuel + 1 => assignmentP fuel

/-- `Parser.assignment`: right-associative; a non-`Variable` target
reports "Invalid assignment target." without raising, and the parsed
left-hand side is returned. -/
def assignmentP : Nat → P Expr
  | 0 => throwP .outOfFuel
  | fuel + 1 => do
    let expr ← logicOr fuel
    if ← matchAny [.EQUAL] then do
      let equals ← previousT
      let value ← assignmentP fuel
      match expr with
      | .variableE _ name => do
        let i ← freshId
        pure (Expr.assign i name value)
      | _ => do
        reportError equals "Invalid assignment target."
        pure expr
    else pure expr

/-- `Parser.logic_or`. -/
def logicOr : Nat → P Expr
  | 0 => throwP .outOfFuel
  | fuel + 1 => do
    let e ← logicAnd fuel
    logicOrLoop fuel e

/-- The `or` loop. -/
def logicOrLoop : Nat → Expr → P Expr
  | 0, _ => throwP .outOfFuel
  | fuel + 1, e => do
    if ← matchAny [.OR] then do
      let op ← previousT
      let right ← logicAnd fuel
      logicOrLoop fuel (Expr.logical e op right)
    else pure e

/-- `Parser.logic_and`. -/
def logicAnd : Nat → P Expr
  | 0 => throwP .outOfFuel
  | fuel + 1 => do
    let e ← equalityP fuel
    logicAndLoop fuel e

/-- The `and` loop. -/
def logicAndLoop : Nat → Expr → P Expr
  | 0, _ => throwP .outOfFuel
  | fuel + 1, e => do
    if ← matchAny [.AND] then do
      let op ← previousT
      let right ← equalityP fuel
      logicAndLoop fuel (Expr.logical e op right)
    else pure e

/-- `Parser.equality`. -/
def equalityP : Nat → P Expr
  | 0 => throwP .outOfFuel
  | fuel + 1 => do
    let e ← comparisonP fuel
    equalityLoop fuel e

/-- The equality loop. -/
def equalityLoop : Nat → Expr → P Expr
  | 0, _ => throwP .outOfFuel
  | fuel + 1, e => do
    if ← matchAny [.BANG_EQUAL, .EQUAL_EQUAL] then do
      let op ← previousT
      let right ← comparisonP fuel
      equalityLoop fuel (Expr.binary e op right)
    else pure e

/-- `Parser.comparison`. -/
def comparisonP : Nat → P Expr
  | 0 => throwP .outOfFuel
  | fuel + 1 => do
    let e ← termP fuel
    comparisonLoop fuel e

/-- The comparison loop. -/
def comparisonLoop : Nat → Expr → P Expr
  | 0, _ => throwP .outOfFuel
  | fuel + 1, e => do
    if ← matchAny [.LESS, .LESS_EQUAL, .GREATER, .GREATER_EQUAL] then do
      let op ← previousT
      let right ← termP fuel
      comparisonLoop fuel (Expr.binary e op right)
    else pure e

/-- `Parser.term`. -/
def termP : Nat → P Expr
  | 0 => throwP .outOfFuel
  | fuel + 1 => do
    let e ← factorP fuel
    termLoop fuel e

/-- The term loop. -/
def termLoop : Nat → Expr → P Expr
  | 0, _ => throwP .outOfFuel
  | fuel + 1, e => do
    if ← matchAny [.PLUS, .MINUS] then do
      let op ← previousT
      let right ← factorP fuel
      termLoop fuel (Expr.binary e op right)
    else pure e

/-- `Parser.factor`. -/
def factorP : Nat → P Expr
  | 0 => throwP .outOfFuel
  | fuel + 1 => do
    let e ← unaryP fuel
    factorLoop fuel e

/-- The factor loop. -/
def factorLoop : Nat → Expr → P Expr
  | 0, _ => throwP .outOfFuel
  | fuel + 1, e => do
    if ← matchAny [.STAR, .SLASH] then do
      let op ← previousT
      let right ← unaryP fuel
      factorLoop fuel (Expr.binary e op right)
    else pure e

/-- `Parser.unary`. -/
def unaryP : Nat → P Expr
  | 0 => throwP .outOfFuel
  | fuel + 1 => do
    if ← matchAny [.BANG, .MINUS] then do
      let op ← previousT
      let right ← unaryP fuel
      pure (Expr.unary op right)
    else callP fuel

/-- `Parser.call`: a primary followed by call suffixes. -/
def callP : Nat → P Expr
  | 0 => throwP .outOfFuel
  | fuel + 1 => do
    let e ← primaryP fuel
    callLoop fuel e

/-- The call-suffix loop of `Parser.call`. -/
def callLoop : Nat → Expr → P Expr
  | 0, _ => throwP .outOfFuel
  | fuel + 1, e => do
    if ← matchAny [.LEFT_PAREN] then do
      let args ←
        if !(← checkT .RIGHT_PAREN) then argsLoop fuel []
        else pure ([] : List Expr)
      let paren ← consumeT .RIGHT_PAREN "Expect ')' after arguments."
      callLoop fuel (Expr.call e paren args)
    else pure e

/-- The argument loop of `Parser.call`, exactly as written in the
source: arguments are collected only `while self.match(COMMA)`, so the
loop adds an argument only after consuming a comma; past 255 the error
is reported but not raised. -/
def argsLoop : Nat → List Expr → P (List Expr)
  | 0, _ => throwP .outOfFuel
  | fuel + 1, acc => do
    if ← matchAny [.COMMA] then do
      if acc.length ≥ 255 then do
        let p ← peekT
        reportError p "Can't have more than 255 arguments."
      let e ← expressionP fuel
      argsLoop fuel (acc ++ [e])
    else pure acc

/-- `Parser.primary`. -/
def primaryP : Nat → P Expr
  | 0 => throwP .outOfFuel
  | fuel + 1 => do
    if ← matchAny [.FALSE] then pure (Expr.literal (.bool false))
    else if ← matchAny [.TRUE] then pure (Expr.literal (.bool true))
    else if ← matchAny [.NIL] then pure (Expr.literal .nil)
    else if ← matchAny [.NUMBER, .STRING] then do
      let prev ← previousT
      match prev.literal with
      | some (.num q) => pure (Expr.literal (.num q))
      | some (.str t) => pure (Expr.literal (.str t))
      | none => pure (Expr.literal .nil)
    else if ← matchAny [.LEFT_PAREN] then do
      let e ← expressionP fuel
      let _ ← consumeT .RIGHT_PAREN "Expect ')' after expression."
      pure (Expr.grouping e)
    else if ← matchAny [.IDENTIFIER] then do
      let prev ← previousT
      let i ← freshId
      pure (Expr.variableE i prev)
    else do
      let p ← peekT
      errorThrow p "Expect expression."

end

/-- The `while not self.is_at_end` loop of `Parser.parse`. -/
def parseLoop : Nat → P (List (Option Stmt))
  | 0 => throwP .outOfFuel
  | fuel + 1 => do
    let atEnd ← isAtEndP
    if atEnd then pure []
    else do
      let d ← declarationP fuel
      let rest ← parseLoop fuel
      pure (d :: rest)

/-- `Parser(tokens).parse()` with a fuel bound: the list of parsed (or
dropped-to-`None`) declarations and the final parser state. -/
def parseTokens (fuel : Nat) (tokens : List Token) :
    Except PThrow (List (Option Stmt)) × PState :=
  parseLoop fuel ⟨tokens, 0, [], 0⟩


/-! ## Auxiliary notions used by the theorems -/

/-- The characters `Scanner.scan_token` recognizes without reporting
"Unexpected character.": the punctuators, the one-or-two-character
operator heads, slash, tab, space, newline, the string quote, digits
and identifier heads.  Carriage return is not among them in this
source. -/
def recognizedChar (c : Char) : Bool :=
  c = '(' || c = ')' || c = '\x7b' || c = '\x7d' || c = ',' || c = '.' ||
  c = '-' || c = '+' || c = ';' || c = '*' || c = '!' || c = '=' ||
  c = '>' || c = '<' || c = '/' || c = '\t' || c = ' ' || c = '\n' ||
  c = '"' || is_digit c || is_alpha c

/-- Whether a scan reported "Unexpected character.". -/
def ScanState.hasUnexpected (s : ScanState) : Bool :=
  s.errors.any (fun p => p.2 = "Unexpected character.")

/-- The runtime type discriminant of a value (`nil`, boolean, number,
string, native callable, function, class, instance). -/
def Value.tag : Value → Nat
  | .nil => 0
  | .bool _ => 1
  | .num _ => 2
  | .str _ => 3
  | .clock => 4
  | .functionV _ => 5
  | .classV _ => 6
  | .inst _ => 7

/-- A computation preserves the interpreter's current-environment
pointer: whatever the outcome, `Interpreter.environment` afterwards
equals its value before. -/
def PreservesEnv {α : Type} (m : M α) : Prop :=
  ∀ s : IState, ((m s).2).environment = s.environment


/-! # Theorems

First a block of shared helper lemmas, then one theorem (plus witness or
counterexample where called for) per specification claim. -/

/-- The accumulator-shifting law of the `resolve_local` loop. -/
theorem resolveLocalGo_succ (name : String) : ∀ (l : List Scope) (d : Nat),
    resolveLocalGo name l (d + 1) = (resolveLocalGo name l d).map (· + 1) := by
  intro l
  induction l with
  | nil => intro d; rfl
  | cons s rest ih =>
    intro d
    rw [resolveLocalGo, resolveLocalGo]
    by_cases h : scopeContains s name
    · rw [if_pos h, if_pos h, Option.map_some']
    · rw [if_neg h, if_neg h]; exact ih (d + 1)

/-- The `resolve_local` loop finds exactly the first index (from the
head of the reversed stack, i.e. the innermost scope) whose scope
contains the name. -/
theorem resolveLocalGo_some_iff (name : String) : ∀ (l : List Scope) (j : Nat),
    resolveLocalGo name l 0 = some j ↔
      j < l.length ∧ scopeContains (l.getD j []) name = true ∧
      ∀ e, e < j → scopeContains (l.getD e []) name = false := by
  intro l
  induction l with
  | nil =>
    intro j
    rw [resolveLocalGo]
    simp
  | cons s rest ih =>
    intro j
    rw [resolveLocalGo]
    by_cases h : scopeContains s name
    · rw [if_pos h]
      constructor
      · intro hj
        cases hj
        exact ⟨Nat.succ_pos _, by simpa using h, fun e he => absurd he (by omega)⟩
      · rintro ⟨_, _, hall⟩
        cases j with
        | zero => rfl
        | succ k =>
          have h0 := hall 0 (Nat.succ_pos _)
          rw [List.getD_cons_zero] at h0
          rw [h] at h0
          cases h0
    · rw [if_neg h]
      rw [resolveLocalGo_succ]
      cases j with
      | zero =>
        simp only [Option.map_eq_some']
        constructor
        · rintro ⟨k, _, hk⟩
          exact (Nat.succ_ne_zero k hk).elim
        · rintro ⟨_, hd, _⟩
          rw [List.getD_cons_zero] at hd
          rw [hd] at h
          cases h rfl
      | succ k =>
        simp only [Option.map_eq_some']
        constructor
        · rintro ⟨m, hm, hmk⟩
          have hmk2 : m = k := by omega
          subst hmk2
          obtain ⟨h1, h2, h3⟩ := (ih m).1 hm
          refine ⟨by simpa using Nat.succ_lt_succ h1, by simpa using h2, ?_⟩
          intro e he
          cases e with
          | zero => simpa [Bool.not_eq_true] using h
          | succ f =>
            have := h3 f (by omega)
            simpa using this
        · rintro ⟨h1, h2, h3⟩
          refine ⟨k, (ih k).2 ⟨by simpa using h1, by simpa using h2, ?_⟩, by simp⟩
          intro e he
          have := h3 (e + 1) (by omega)
          simpa using this

/-- The `resolve_local` loop records nothing exactly when no scope on
the stack contains the name. -/
theorem resolveLocalGo_none_iff (name : String) : ∀ (l : List Scope) (d : Nat),
    resolveLocalGo name l d = none ↔
      ∀ scope ∈ l, scopeContains scope name = false := by
  intro l
  induction l with
  | nil => intro d; simp [resolveLocalGo]
  | cons s rest ih =>
    intro d
    rw [resolveLocalGo]
    by_cases h : scopeContains s name
    · rw [if_pos h]
      constructor
      · intro hc; cases hc
      · intro hall
        have := hall s (List.mem_cons_self s rest)
        rw [h] at this; cases this
    · rw [if_neg h]
      rw [ih (d + 1)]
      constructor
      · intro hall scope hm
        rcases List.mem_cons.1 hm with rfl | hm2
        · simpa [Bool.not_eq_true] using h
        · exact hall scope hm2
      · intro hall scope hm
        exact hall scope (List.mem_cons_of_mem _ hm)

/-- The `resolve_local` loop agrees with `List.findIdx?`. -/
theorem resolveLocalGo_findIdx (name : String) : ∀ (l : List Scope) (d : Nat),
    resolveLocalGo name l d = l.findIdx? (fun scope => scopeContains scope name) d := by
  intro l
  induction l with
  | nil => intro d; rfl
  | cons scope rest ih =>
    intro d
    rw [resolveLocalGo, List.findIdx?_cons]
    split
    · rfl
    · exact ih (d + 1)

/-- Scanning any one-character source reports "Unexpected character."
exactly when the character is outside the recognized set. -/
theorem scan_singleChar_unexpected (c : Char) :
    (scanTokens (String.mk [c])).hasUnexpected = !recognizedChar c := by
  by_cases h1 : c = '('
  · subst h1; decide
  by_cases h2 : c = ')'
  · subst h2; decide
  by_cases h3 : c = '\x7b'
  · subst h3; decide
  by_cases h4 : c = '\x7d'
  · subst h4; decide
  by_cases h5 : c = ','
  · subst h5; decide
  by_cases h6 : c = '.'
  · subst h6; decide
  by_cases h7 : c = '-'
  · subst h7; decide
  by_cases h8 : c = '+'
  · subst h8; decide
  by_cases h9 : c = ';'
  · subst h9; decide
  by_cases h10 : c = '*'
  · subst h10; decide
  by_cases h11 : c = '!'
  · subst h11; decide
  by_cases h12 : c = '='
  · subst h12; decide
  by_cases h13 : c = '>'
  · subst h13; decide
  by_cases h14 : c = '<'
  · subst h14; decide
  by_cases h15 : c = '/'
  · subst h15; decide
  by_cases h16 : c = '\t'
  · subst h16; decide
  by_cases h17 : c = ' '
  · subst h17; decide
  by_cases h18 : c = '\n'
  · subst h18; decide
  by_cases h19 : c = '"'
  · subst h19; decide
  by_cases hd : is_digit c
  · simp [scanTokens, scanLoop, scanToken, scanNumber, consumeWhile,
      ScanState.advance, ScanState.peek, ScanState.peekNext, ScanState.isAtEnd,
      ScanState.addToken, ScanState.report, ScanState.lexeme,
      ScanState.hasUnexpected, recognizedChar, List.getD,
      h1, h2, h3, h4, h5, h6, h7, h8, h9, h10, h11, h12, h13, h14, h15,
      h16, h17, h18, h19, hd,
      show is_digit '\x00' = false from rfl]
  by_cases ha : is_alpha c
  · simp [scanTokens, scanLoop, scanToken, scanIdentifier, consumeWhile,
      ScanState.advance, ScanState.peek, ScanState.isAtEnd,
      ScanState.addToken, ScanState.report, ScanState.lexeme,
      ScanState.hasUnexpected, recognizedChar, List.getD, keywordLookup,
      h1, h2, h3, h4, h5, h6, h7, h8, h9, h10, h11, h12, h13, h14, h15,
      h16, h17, h18, h19, hd, ha,
      show is_digit '\x00' = false from rfl,
      show is_alpha '\x00' = false from rfl]
  · simp [scanTokens, scanLoop, scanToken,
      ScanState.advance, ScanState.peek, ScanState.isAtEnd,
      ScanState.addToken, ScanState.report,
      ScanState.hasUnexpected, recognizedChar, List.getD,
      h1, h2, h3, h4, h5, h6, h7, h8, h9, h10, h11, h12, h13, h14, h15,
      h16, h17, h18, h19, hd, ha]


/-- Claim C1 (code bug): executing a class declaration is claimed to
define the name to nil, build the class value (name, superclass,
methods) and assign it.  In the source, `visit_class` defines the name
to nil and then calls `LoxClass(stmt.name.lexeme)` with one argument,
while `LoxClass` requires `name`, `superclass` and `methods`; Python
raises `TypeError`, the statement aborts, and the name stays nil — no
class value is ever constructed or assigned. -/
theorem claim_C1 :
    (execute 5 (.classS ⟨.IDENTIFIER, "Foo", none, 1⟩ none []) (initState [] 0)).1 =
      .error (.pyError
        "TypeError: LoxClass() missing 2 required positional arguments: 'superclass' and 'methods'") ∧
    (execute 5 (.classS ⟨.IDENTIFIER, "Foo", none, 1⟩ none []) (initState [] 0)).2.envs =
      [⟨none, [("clock", Value.clock), ("Foo", Value.nil)]⟩] ∧
    (execute 5 (.classS ⟨.IDENTIFIER, "Foo", none, 1⟩ none []) (initState [] 0)).2.environment = 0 :=
  ⟨rfl, rfl, rfl⟩

/-- Claim C2 (code bug): declaring a user function is claimed to bind
the name to a function value closing over the declaration environment.
In the source, `visit_function` calls `LoxFunction(stmt, self.environment)`
while `LoxFunction` also requires `is_initialiser`; Python raises
`TypeError` and nothing is bound.  The call machinery itself
(`LoxFunction.call`) does behave as claimed on a hand-built function
value: parameters are bound in a fresh environment chained to the
closure, a return unwind carries the result, and a body without return
yields nil. -/
theorem claim_C2 :
    (execute 5 (.functionS (.mk ⟨.IDENTIFIER, "f", none, 1⟩ [] [])) (initState [] 0)).1 =
      .error (.pyError
        "TypeError: LoxFunction() missing 1 required positional argument: 'is_initialiser'") ∧
    (execute 5 (.functionS (.mk ⟨.IDENTIFIER, "f", none, 1⟩ [] [])) (initState [] 0)).2 =
      initState [] 0 ∧
    (loxFunctionCall 10
      ⟨.mk ⟨.IDENTIFIER, "f", none, 1⟩ [⟨.IDENTIFIER, "x", none, 1⟩]
        [some (.returnS ⟨.RETURN, "return", none, 2⟩ (some (.variableE 5 ⟨.IDENTIFIER, "x", none, 2⟩)))],
       0, false⟩
      [.num 42] (initState [(5, 0)] 0)).1 = .ok (.num 42) ∧
    (loxFunctionCall 10
      ⟨.mk ⟨.IDENTIFIER, "f", none, 1⟩ [] [], 0, false⟩
      [] (initState [] 0)).1 = .ok Value.nil ∧
    (loxFunctionCall 10
      ⟨.mk ⟨.IDENTIFIER, "f", none, 1⟩ [] [], 0, false⟩
      [] (initState [] 0)).2.envs = [standardGlobals, ⟨some 0, []⟩] :=
  ⟨rfl, rfl, rfl, rfl, rfl⟩

/-- Claim C3 (code bug): every word of the claimed keyword set is
scanned as its keyword kind.  The source's keyword table maps "it"
(kind `IT`) instead of "if", and `TokenType` has no member `IF` at all
(the parser's references to `TokenType.IF` are `AttributeError`s), so
scanning "if" emits an identifier token; every other claimed keyword
scans as its keyword kind. -/
theorem claim_C3 :
    (scanTokens "if").tokens =
      [⟨.IDENTIFIER, "if", none, 1⟩, ⟨.EOF, "", none, 1⟩] ∧
    (scanTokens "if").errors = [] ∧
    (scanTokens "it").tokens =
      [⟨.IT, "it", none, 1⟩, ⟨.EOF, "", none, 1⟩] ∧
    keywordLookup "if" = .IDENTIFIER ∧
    ∀ p ∈ keywords,
      (scanTokens p.1).tokens = [⟨p.2, p.1, none, 1⟩, ⟨.EOF, "", none, 1⟩] := by
  decide

set_option maxHeartbeats 1000000 in
/-- Claim C4 (code bug): the claim says a call `primary ( arg₁ , … ,
argₙ )` with n ≥ 1 parses into a Call node with those arguments.  The
argument loop in `Parser.call` only collects an argument after
consuming a comma (`while self.match(COMMA)`), so `f(1)` fails with
"Expect ')' after arguments." while the malformed `f(,1)` parses into
`Call f [1]`; the empty argument list `f()` still parses. -/
theorem claim_C4 :
    (expressionP 30 ⟨[⟨.IDENTIFIER, "f", none, 1⟩, ⟨.LEFT_PAREN, "(", none, 1⟩,
        ⟨.NUMBER, "1", some (.num 1), 1⟩, ⟨.RIGHT_PAREN, ")", none, 1⟩,
        ⟨.EOF, "", none, 1⟩], 0, [], 0⟩).1 =
      .error (.loxParseError 1 "Expect ')' after arguments.") ∧
    (expressionP 30 ⟨[⟨.IDENTIFIER, "f", none, 1⟩, ⟨.LEFT_PAREN, "(", none, 1⟩,
        ⟨.NUMBER, "1", some (.num 1), 1⟩, ⟨.RIGHT_PAREN, ")", none, 1⟩,
        ⟨.EOF, "", none, 1⟩], 0, [], 0⟩).2.errors =
      [(1, "Expect ')' after arguments.")] ∧
    (expressionP 30 ⟨[⟨.IDENTIFIER, "f", none, 1⟩, ⟨.LEFT_PAREN, "(", none, 1⟩,
        ⟨.COMMA, ",", none, 1⟩, ⟨.NUMBER, "1", some (.num 1), 1⟩,
        ⟨.RIGHT_PAREN, ")", none, 1⟩, ⟨.EOF, "", none, 1⟩], 0, [], 0⟩).1 =
      .ok (.call (.variableE 0 ⟨.IDENTIFIER, "f", none, 1⟩) ⟨.RIGHT_PAREN, ")", none, 1⟩
        [.literal (.num 1)]) ∧
    (expressionP 30 ⟨[⟨.IDENTIFIER, "f", none, 1⟩, ⟨.LEFT_PAREN, "(", none, 1⟩,
        ⟨.COMMA, ",", none, 1⟩, ⟨.NUMBER, "1", some (.num 1), 1⟩,
        ⟨.RIGHT_PAREN, ")", none, 1⟩, ⟨.EOF, "", none, 1⟩], 0, [], 0⟩).2.errors = [] ∧
    (expressionP 30 ⟨[⟨.IDENTIFIER, "f", none, 1⟩, ⟨.LEFT_PAREN, "(", none, 1⟩,
        ⟨.RIGHT_PAREN, ")", none, 1⟩, ⟨.EOF, "", none, 1⟩], 0, [], 0⟩).1 =
      .ok (.call (.variableE 0 ⟨.IDENTIFIER, "f", none, 1⟩) ⟨.RIGHT_PAREN, ")", none, 1⟩ []) :=
  ⟨rfl, rfl, rfl, rfl, rfl⟩

/-- Claim C5 counterexample: the claim says that with both error flags
set the runtime exit code 70 supersedes 65; in `run_file` the
compile-flag test comes first, so the exit code is 65, not 70. -/
theorem claim_C5_counterexample : ¬ runFileExit true true = 70 := by
  decide

/-- Claim C5 as amended: exit 65 whenever the compile-error flag is set
(the runtime check is never reached), 70 when only the runtime flag is
set, 0 otherwise. -/
theorem claim_C5 :
    (∀ hre, runFileExit true hre = 65) ∧
    runFileExit false true = 70 ∧
    runFileExit false false = 0 := by
  decide

/-- Claim C6 counterexample: the claim says two distinct instances
compare unequal (reference identity).  `LoxInstance` is a plain attrs
class, so `==` is structural: two distinct heap objects (addresses 0
and 1) of the same class with equal fields satisfy `is_equal`. -/
theorem claim_C6_counterexample :
    is_equal 5
      ⟨[standardGlobals], 0, [⟨.mk "Foo" none [], []⟩, ⟨.mk "Foo" none [], []⟩], [], [], 0⟩
      (.inst 0) (.inst 1) = some true ∧
    (0 : Nat) ≠ 1 := by
  exact ⟨by decide, by decide⟩

/-- Claim C6 as amended: `nil == nil` is true; numbers compare
numerically and strings by content; booleans compare by value and are
never equal to values of any other runtime type (in particular not to
numerically coincident numbers); any two values of different runtime
types compare false without error; instances compare structurally
(class and fields), so distinct instances with equal structure are
equal and those with differing fields are not. -/
theorem claim_C6 :
    (∀ f s, is_equal (f + 1) s .nil .nil = some true) ∧
    (∀ f s (p q : ℚ), is_equal (f + 1) s (.num p) (.num q) = some (decide (p = q))) ∧
    (∀ f s (t u : String), is_equal (f + 1) s (.str t) (.str u) = some (decide (t = u))) ∧
    (∀ f s (a b : Bool), is_equal (f + 1) s (.bool a) (.bool b) = some (decide (a = b))) ∧
    (is_equal 5
      ⟨[standardGlobals], 0, [⟨.mk "Bar" none [], [("a", .num 1)]⟩,
        ⟨.mk "Bar" none [], [("a", .num 1)]⟩], [], [], 0⟩
      (.inst 0) (.inst 1) = some true) ∧
    (is_equal 5
      ⟨[standardGlobals], 0, [⟨.mk "Bar" none [], [("a", .num 1)]⟩,
        ⟨.mk "Bar" none [], [("a", .num 2)]⟩], [], [], 0⟩
      (.inst 0) (.inst 1) = some false) ∧
    (∀ f s v w, Value.tag v ≠ Value.tag w → is_equal (f + 1) s v w = some false) := by
  refine ⟨?_, ?_, ?_, ?_, by decide, by decide, ?_⟩
  · intro f s; simp [is_equal, pyEq]
  · intro f s p q; simp [is_equal, pyEq]
  · intro f s t u; simp [is_equal, pyEq]
  · intro f s a b; simp [is_equal]
  · intro f s v w h
    cases v <;> cases w <;> simp_all [is_equal, pyEq, Value.tag]

/-- Claim C6 witness: the mixed-type clause applied at a number and a
string. -/
theorem claim_C6_witness :
    is_equal 1 (initState [] 0) (.num 1) (.str "1") = some false :=
  claim_C6.2.2.2.2.2.2 0 (initState [] 0) (.num 1) (.str "1") (by decide)

/-- Claim C8 (confirmed): the depth `resolve_local` records is exactly
the static scope distance — the innermost-first index of the first
scope on the stack containing the name — and nothing is recorded
exactly when no scope contains it (the global case).  `staticDistance`
is the specification's own description (first hit searching
innermost-outward). -/
theorem claim_C8 (scopes : List Scope) (name : String) :
    resolveLocal scopes name = staticDistance scopes name ∧
    (∀ d, resolveLocal scopes name = some d ↔
       d < scopes.length ∧
       scopeContains (scopes.reverse.getD d []) name = true ∧
       ∀ e, e < d → scopeContains (scopes.reverse.getD e []) name = false) ∧
    (resolveLocal scopes name = none ↔
       ∀ scope ∈ scopes, scopeContains scope name = false) := by
  refine ⟨?_, ?_, ?_⟩
  · rw [resolveLocal, staticDistance]
    exact resolveLocalGo_findIdx name scopes.reverse 0
  · intro d
    rw [resolveLocal, resolveLocalGo_some_iff name scopes.reverse d,
        List.length_reverse]
  · rw [resolveLocal, resolveLocalGo_none_iff name scopes.reverse 0]
    constructor
    · intro hall scope hm
      exact hall scope (List.mem_reverse.2 hm)
    · intro hall scope hm
      exact hall scope (List.mem_reverse.1 hm)

/-- Claim C8 witness: the characterization applied to a concrete
two-scope stack where the inner scope shadows the outer. -/
theorem claim_C8_witness :
    resolveLocal [[("a", true)], [("a", false), ("b", true)]] "a" =
      staticDistance [[("a", true)], [("a", false), ("b", true)]] "a" ∧
    resolveLocal [[("a", true)], [("a", false), ("b", true)]] "a" = some 0 :=
  ⟨(claim_C8 _ _).1, by decide⟩

/-- Claim C9 counterexample: the claim says `\r` is discarded like
space and tab with no lexical error; scanning `"\r"` in fact reports
"Unexpected character." (the whitespace branch tests only `'\t'` and
`' '`). -/
theorem claim_C9_counterexample :
    (scanTokens "\r").errors = [(1, "Unexpected character.")] ∧
    (scanTokens "\r").errors ≠ [] := by
  decide

/-- Claim C9 as amended: carriage return is not discarded — it is
reported as "Unexpected character." and produces no token — while
space and tab are discarded silently and newline only increments the
line counter; over one-character sources, "Unexpected character." is
reported exactly for characters outside the recognized set (which does
not include `\r`). -/
theorem claim_C9 :
    (scanTokens "\r").errors = [(1, "Unexpected character.")] ∧
    (scanTokens "\r").tokens = [⟨.EOF, "", none, 1⟩] ∧
    (scanTokens " ").errors = [] ∧
    (scanTokens " ").tokens = [⟨.EOF, "", none, 1⟩] ∧
    (scanTokens "\t").errors = [] ∧
    (scanTokens "\t").tokens = [⟨.EOF, "", none, 1⟩] ∧
    (scanTokens "\n").errors = [] ∧
    (scanTokens "\n").tokens = [⟨.EOF, "", none, 2⟩] ∧
    recognizedChar '\r' = false ∧
    ∀ c : Char, (scanTokens (String.mk [c])).hasUnexpected = !recognizedChar c := by
  refine ⟨by decide, by decide, by decide, by decide, by decide, by decide,
    by decide, by decide, by decide, ?_⟩
  intro c
  exact scan_singleChar_unexpected c

set_option maxHeartbeats 1000000 in
/-- Claim C10 (confirmed): a failed declaration is caught, the parser
synchronises, and `parse` keeps a `None` at that position, so the list
handed to the later passes is a list of optional statements.  Concretely
`var ; var x = 1 ;` parses to `[None, Var x 1]` with the error
reported. -/
theorem claim_C10 :
    (parseTokens 30 [⟨.VAR, "var", none, 1⟩, ⟨.SEMICOLON, ";", none, 1⟩,
        ⟨.VAR, "var", none, 2⟩, ⟨.IDENTIFIER, "x", none, 2⟩, ⟨.EQUAL, "=", none, 2⟩,
        ⟨.NUMBER, "1", some (.num 1), 2⟩, ⟨.SEMICOLON, ";", none, 2⟩,
        ⟨.EOF, "", none, 2⟩]).1 =
      .ok [none,
           some (.varS ⟨.IDENTIFIER, "x", none, 2⟩ (some (.literal (.num 1))))] ∧
    (parseTokens 30 [⟨.VAR, "var", none, 1⟩, ⟨.SEMICOLON, ";", none, 1⟩,
        ⟨.VAR, "var", none, 2⟩, ⟨.IDENTIFIER, "x", none, 2⟩, ⟨.EQUAL, "=", none, 2⟩,
        ⟨.NUMBER, "1", some (.num 1), 2⟩, ⟨.SEMICOLON, ";", none, 2⟩,
        ⟨.EOF, "", none, 2⟩]).2.errors = [(1, "Expect variable name.")] :=
  ⟨rfl, rfl⟩


theorem M_bind_apply {α β : Type} (m : M α) (k : α → M β) (s : IState) :
    (m >>= k) s =
      match m s with
      | (.ok a, s1) => k a s1
      | (.error e, s1) => (.error e, s1) := rfl

theorem PreservesEnv.bind {α β : Type} {m : M α} {k : α → M β}
    (h1 : PreservesEnv m) (h2 : ∀ a, PreservesEnv (k a)) :
    PreservesEnv (m >>= k) := by
  intro s
  rw [M_bind_apply]
  rcases hm : m s with ⟨r, s1⟩
  have h1s := h1 s
  rw [hm] at h1s
  cases r with
  | ok a =>
    have := h2 a s1
    simp only []
    rw [this, h1s]
  | error e =>
    simpa using h1s

theorem preservesEnv_pure {α : Type} (a : α) : PreservesEnv (pure a : M α) :=
  fun _ => rfl

theorem preservesEnv_throwF {α : Type} (e : Fail) : PreservesEnv (throwF (α := α) e) :=
  fun _ => rfl

theorem preservesEnv_getS : PreservesEnv getS :=
  fun _ => rfl

theorem preservesEnv_envDefine (i : Nat) (n : String) (v : Value) :
    PreservesEnv (envDefine i n v) :=
  fun _ => rfl

theorem preservesEnv_envGetAt (i d : Nat) (n : String) :
    PreservesEnv (envGetAt i d n) := by
  intro s
  rw [envGetAt]
  (repeat' split) <;> rfl

theorem preservesEnv_envAssignAt (i d : Nat) (n : String) (v : Value) :
    PreservesEnv (envAssignAt i d n v) := by
  intro s
  rw [envAssignAt]
  (repeat' split) <;> rfl

theorem preservesEnv_envGet : ∀ (fuel i : Nat) (name : Token),
    PreservesEnv (envGet fuel i name) := by
  intro fuel
  induction fuel with
  | zero => intro i name s; rfl
  | succ f ih =>
    intro i name s
    rw [envGet]
    (try dsimp only)
    (repeat' split) <;> first
      | rfl
      | apply ih

theorem preservesEnv_envAssign : ∀ (fuel i : Nat) (name : Token) (v : Value),
    PreservesEnv (envAssign fuel i name v) := by
  intro fuel
  induction fuel with
  | zero => intro i name v s; rfl
  | succ f ih =>
    intro i name v s
    rw [envAssign]
    (try dsimp only)
    (repeat' split) <;> first
      | rfl
      | apply ih

theorem preservesEnv_lookUpVariable (fuel id : Nat) (name : Token) :
    PreservesEnv (lookUpVariable fuel id name) := by
  rw [lookUpVariable]
  refine PreservesEnv.bind preservesEnv_getS ?_
  intro a
  rcases localsLookup a id with _ | d
  · exact preservesEnv_envGet fuel 0 name
  · exact preservesEnv_envGetAt a.environment d name.lexeme

theorem preservesEnv_printValue (v : Value) : PreservesEnv (printValue v) :=
  fun _ => rfl

theorem preservesEnv_bindMethod (m : LoxFunctionV) (addr : Nat) :
    PreservesEnv (bindMethod m addr) :=
  fun _ => rfl

theorem preservesEnv_instanceSet (addr : Nat) (n : String) (v : Value) :
    PreservesEnv (instanceSet addr n v) :=
  fun _ => rfl

theorem preservesEnv_instanceGet (addr : Nat) (name : Token) :
    PreservesEnv (instanceGet addr name) := by
  rw [instanceGet]
  refine PreservesEnv.bind preservesEnv_getS ?_
  intro a
  rcases dictFind (a.objGetD addr).fields name.lexeme with _ | v
  · rcases findMethod (a.objGetD addr).klass name.lexeme with _ | m
    · exact preservesEnv_throwF _
    · exact PreservesEnv.bind (preservesEnv_bindMethod m addr)
        (fun f => preservesEnv_pure _)
  · exact preservesEnv_pure v

theorem preservesEnv_defineParams (i : Nat) : ∀ l : List (Token × Value),
    PreservesEnv (defineParams i l) := by
  intro l
  induction l with
  | nil => exact preservesEnv_pure ()
  | cons p rest ih =>
    rw [defineParams]
    exact PreservesEnv.bind (preservesEnv_envDefine i p.1.lexeme p.2) (fun _ => ih)

theorem preservesEnv_checkNumberOperand (op : Token) (v : Value) :
    PreservesEnv (checkNumberOperand op v) := by
  rcases v <;> first
    | exact preservesEnv_pure ()
    | exact preservesEnv_throwF _

theorem preservesEnv_checkNumberOperands (op : Token) (l r : Value) :
    PreservesEnv (checkNumberOperands op l r) := by
  rcases l <;> rcases r <;> first
    | exact preservesEnv_pure ()
    | exact preservesEnv_throwF _

theorem preservesEnv_isEqualBranch (g : Bool → Value) (fuel : Nat) (l r : Value) :
    PreservesEnv (fun s =>
      match is_equal fuel s l r with
      | some b => ((.ok (g b), s) : Except Fail Value × IState)
      | none => (.error (.pyError "RecursionError"), s)) := by
  intro s
  dsimp only
  split <;> rfl

theorem preservesEnv_binaryOp (fuel : Nat) (op : Token) (l r : Value) :
    PreservesEnv (binaryOp fuel op l r) := by
  rcases op with ⟨ty, lex, lit, line⟩
  cases ty <;>
    first
    | exact preservesEnv_pure _
    | exact preservesEnv_isEqualBranch (fun b => .bool b) fuel l r
    | exact preservesEnv_isEqualBranch (fun b => .bool (!b)) fuel l r
    | (rcases l <;> rcases r <;> first
         | exact preservesEnv_pure _
         | exact preservesEnv_throwF _)
    | (refine PreservesEnv.bind (preservesEnv_checkNumberOperands _ l r) fun a => ?_
       rcases l <;> rcases r <;> first
         | exact preservesEnv_pure _
         | exact preservesEnv_throwF _
         | (intro s
            dsimp only
            split <;> rfl))


theorem preservesEnv_executeBlockIn (fuel : Nat) (stmts : List (Option Stmt)) (i : Nat) :
    PreservesEnv (executeBlockIn fuel stmts i) := by
  cases fuel with
  | zero => exact preservesEnv_throwF _
  | succ f =>
    intro s
    rw [executeBlockIn]

theorem preservesEnv_loxFunctionCall (fuel : Nat) (f : LoxFunctionV) (args : List Value) :
    PreservesEnv (loxFunctionCall fuel f args) := by
  cases fuel with
  | zero => exact preservesEnv_throwF _
  | succ fl =>
    rw [loxFunctionCall]
    refine PreservesEnv.bind preservesEnv_getS fun a => ?_
    refine PreservesEnv.bind (fun _ => rfl) fun _ => ?_
    refine PreservesEnv.bind (preservesEnv_defineParams _ _) fun _ => ?_
    intro s
    have hb := preservesEnv_executeBlockIn fl f.declaration.body a.envs.length s
    rcases h : executeBlockIn fl f.declaration.body a.envs.length s with ⟨r, s1⟩
    rw [h] at hb
    dsimp only
    rw [h]
    rcases r with e | u
    · rcases e with ln | v | m | _
      · exact hb
      · dsimp only
        split
        · have := preservesEnv_envGetAt f.closure 0 "this" s1
          rw [this, hb]
        · exact hb
      · exact hb
      · exact hb
    · dsimp only
      split
      · have := preservesEnv_envGetAt f.closure 0 "this" s1
        rw [this, hb]
      · exact hb

theorem preservesEnv_loxClassCall (fuel : Nat) (c : LoxClassV) (args : List Value) :
    PreservesEnv (loxClassCall fuel c args) := by
  cases fuel with
  | zero => exact preservesEnv_throwF _
  | succ fl =>
    rw [loxClassCall]
    refine PreservesEnv.bind preservesEnv_getS fun a => ?_
    refine PreservesEnv.bind (fun _ => rfl) fun _ => ?_
    rcases findMethod c "init" with _ | init
    · exact preservesEnv_pure _
    · refine PreservesEnv.bind (preservesEnv_bindMethod init a.objects.length) fun b => ?_
      refine PreservesEnv.bind (preservesEnv_loxFunctionCall fl b args) fun _ => ?_
      exact preservesEnv_pure _


theorem preservesEnv_interp : ∀ fuel : Nat,
    (∀ e, PreservesEnv (evaluate fuel e)) ∧
    (∀ es, PreservesEnv (evalList fuel es)) ∧
    (∀ st, PreservesEnv (execute fuel st)) ∧
    (∀ c b, PreservesEnv (whileRun fuel c b)) ∧
    (∀ l, PreservesEnv (executeSeq fuel l)) := by
  intro fuel
  induction fuel with
  | zero =>
    exact ⟨fun _ => preservesEnv_throwF _, fun _ => preservesEnv_throwF _,
      fun _ => preservesEnv_throwF _, fun _ _ => preservesEnv_throwF _,
      fun _ => preservesEnv_throwF _⟩
  | succ f ih =>
    obtain ⟨ihE, ihL, ihS, ihW, ihQ⟩ := ih
    refine ⟨?_, ?_, ?_, ?_, ?_⟩
    · -- evaluate
      intro e
      rw [evaluate.eq_def]
      dsimp only
      cases e with
      | literal v => exact preservesEnv_pure _
      | grouping inner => exact ihE inner
      | unary op right =>
        refine PreservesEnv.bind (ihE right) fun r => ?_
        split
        · refine PreservesEnv.bind (preservesEnv_checkNumberOperand op r) fun _ => ?_
          rcases r <;> first
            | exact preservesEnv_pure _
            | exact preservesEnv_throwF _
        · split
          · exact preservesEnv_pure _
          · exact preservesEnv_pure _
      | binary l op r =>
        refine PreservesEnv.bind (ihE l) fun lv => ?_
        refine PreservesEnv.bind (ihE r) fun rv => ?_
        exact preservesEnv_binaryOp f op lv rv
      | logical l op r =>
        refine PreservesEnv.bind (ihE l) fun lv => ?_
        split
        · exact ihE r
        · exact preservesEnv_pure _
      | variableE id name => exact preservesEnv_lookUpVariable f id name
      | assign id name value =>
        refine PreservesEnv.bind (ihE value) fun v => ?_
        refine PreservesEnv.bind preservesEnv_getS fun a => ?_
        rcases localsLookup a id with _ | d
        · refine PreservesEnv.bind (preservesEnv_envAssign f 0 name v) fun _ => ?_
          exact preservesEnv_pure _
        · refine PreservesEnv.bind
            (preservesEnv_envAssignAt a.environment d name.lexeme v) fun _ => ?_
          exact preservesEnv_pure _
      | call callee paren args =>
        refine PreservesEnv.bind (ihE callee) fun cv => ?_
        refine PreservesEnv.bind (ihL args) fun argv => ?_
        rcases cv with _ | b | q | t | _ | fv | cl | addr <;> (try dsimp only)
        · exact preservesEnv_throwF _
        · exact preservesEnv_throwF _
        · exact preservesEnv_throwF _
        · exact preservesEnv_throwF _
        · split
          · exact preservesEnv_throwF _
          · intro s; rfl
        · split
          · exact preservesEnv_throwF _
          · exact preservesEnv_loxFunctionCall f fv argv
        · split
          · exact preservesEnv_throwF _
          · exact preservesEnv_loxClassCall f cl argv
        · exact preservesEnv_throwF _
      | get obj name =>
        refine PreservesEnv.bind (ihE obj) fun o => ?_
        rcases o with _ | b | q | t | _ | fv | cl | addr
        all_goals first
          | exact preservesEnv_throwF _
          | exact preservesEnv_instanceGet addr name
      | set obj name value =>
        refine PreservesEnv.bind (ihE obj) fun o => ?_
        rcases o with _ | b | q | t | _ | fv | cl | addr
        all_goals try exact preservesEnv_throwF _
        refine PreservesEnv.bind (ihE value) fun v => ?_
        refine PreservesEnv.bind (preservesEnv_instanceSet addr name.lexeme v) fun _ => ?_
        exact preservesEnv_pure _
      | thisE id keyword => exact preservesEnv_throwF _
    · -- evalList
      intro es
      rw [evalList.eq_def]
      cases es with
      | nil => exact preservesEnv_pure _
      | cons e rest =>
        refine PreservesEnv.bind (ihE e) fun v => ?_
        refine PreservesEnv.bind (ihL rest) fun vs => ?_
        exact preservesEnv_pure _
    · -- execute
      intro st
      rw [execute.eq_def]
      dsimp only
      cases st with
      | expression e =>
        refine PreservesEnv.bind (ihE e) fun _ => ?_
        exact preservesEnv_pure _
      | print e =>
        refine PreservesEnv.bind (ihE e) fun v => ?_
        exact preservesEnv_printValue v
      | varS name init =>
        rcases init with _ | e
        · dsimp only
          refine PreservesEnv.bind (preservesEnv_pure _) fun v => ?_
          refine PreservesEnv.bind preservesEnv_getS fun a => ?_
          exact preservesEnv_envDefine a.environment name.lexeme v
        · dsimp only
          refine PreservesEnv.bind (ihE e) fun v => ?_
          refine PreservesEnv.bind preservesEnv_getS fun a => ?_
          exact preservesEnv_envDefine a.environment name.lexeme v
      | functionS decl => exact preservesEnv_throwF _
      | classS name sup methods =>
        refine PreservesEnv.bind preservesEnv_getS fun a => ?_
        refine PreservesEnv.bind (preservesEnv_envDefine a.environment name.lexeme .nil)
          fun _ => ?_
        exact preservesEnv_throwF _
      | ifS c t e =>
        refine PreservesEnv.bind (ihE c) fun v => ?_
        split
        · exact ihS t
        · rcases e with _ | el
          · exact preservesEnv_pure _
          · exact ihS el
      | returnS kw value =>
        rcases value with _ | e
        · dsimp only
          refine PreservesEnv.bind (preservesEnv_pure _) fun v => ?_
          exact preservesEnv_throwF _
        · dsimp only
          refine PreservesEnv.bind (ihE e) fun v => ?_
          exact preservesEnv_throwF _
      | whileS c body => exact ihW c body
      | block stmts =>
        refine PreservesEnv.bind preservesEnv_getS fun a => ?_
        refine PreservesEnv.bind (fun _ => rfl) fun _ => ?_
        exact preservesEnv_executeBlockIn f stmts a.envs.length
    · -- whileRun
      intro c b
      rw [whileRun]
      refine PreservesEnv.bind (ihE c) fun v => ?_
      split
      · refine PreservesEnv.bind (ihS b) fun _ => ?_
        exact ihW c b
      · exact preservesEnv_pure _
    · -- executeSeq
      intro l
      rw [executeSeq.eq_def]
      cases l with
      | nil => exact preservesEnv_pure _
      | cons o rest =>
        rcases o with _ | st
        · exact preservesEnv_throwF _
        · refine PreservesEnv.bind (ihS st) fun _ => ?_
          exact ihQ rest


/-- Claim C7 (confirmed): executing any statement leaves the
interpreter's current-environment pointer exactly as it was, whatever
the exit path — the equation holds for every outcome of the run:
normal completion, a runtime error, a Python-level error, a return
unwind, or fuel exhaustion — because `execute_block` restores the
saved pointer in a `finally` and nothing else ever assigns it. -/
theorem claim_C7 (fuel : Nat) (st : Stmt) (s : IState) :
    ((execute fuel st s).2).environment = s.environment :=
  (preservesEnv_interp fuel).2.2.1 st s

/-- Claim C7 witness: a concrete block statement run from the initial
state keeps the pointer at the globals. -/
theorem claim_C7_witness :
    ((execute 5
        (.block [some (.varS ⟨.IDENTIFIER, "a", none, 1⟩ (some (.literal (.num 1))))])
        (initState [] 0)).2).environment = (initState [] 0).environment :=
  claim_C7 5 _ _

end Plox
